import Mathlib

/-!
Verification of the cloudflare-universal-webhook worker.

The TypeScript sources are shallowly embedded as Lean functions:

* `handleWebhook`, `isDataFormatAllowed`, `getExtensionFromContentType`,
  `formatDate`, `isValidCustomerId`, `findCustomerByIdOrOutlet`
  (src/endpoints/webhook.ts),
* `ipValidation`, `tokenAuthentication`, `timingSafeEqual`
  (src/middleware/auth.ts),
* `auditMiddleware` (src/middleware/audit.ts),
* `listWebhooks`, `listAuditLogs`, `isValidUUID`
  (src/endpoints/webhookManagement.ts).

Conventions of the embedding: JavaScript strings that only undergo
structural operations (split, trim, toLowerCase, concatenation) are Lean
`String`s; the secret tokens compared byte-wise by `timingSafeEqual` are
byte sequences (`List Nat`, each entry < 256).  A JavaScript value that can
be `undefined` is an `Option`; where the code relies on string falsiness
(`!s` is true for the empty string) the embedding spells the emptiness test
out.  External collaborators (the R2 bucket, the KV store, `JSON.parse`,
`crypto.randomUUID`, the clock) enter as explicit parameters.
-/

/-- JavaScript `String.prototype.trim` on a character list: strip leading
and trailing whitespace. -/
def jsTrimChars (cs : List Char) : List Char :=
  ((cs.dropWhile Char.isWhitespace).reverse.dropWhile Char.isWhitespace).reverse

/-- JavaScript `String.prototype.trim` on a string. -/
def jsTrimStr (s : String) : String :=
  String.mk (jsTrimChars s.data)

/-- JavaScript `String.prototype.split` with a one-character separator, on
character lists.  Like in JavaScript, the result is never empty: splitting the empty
string yields `[[]]`. -/
def splitOnChar (sep : Char) (cs : List Char) : List (List Char) :=
  match cs with
  | [] => [[]]
  | c :: rest =>
    let tail := splitOnChar sep rest
    if c = sep then
      [] :: tail
    else
      match tail with
      | [] => [[c]]
      | t :: ts => (c :: t) :: ts

/-- JavaScript `String.prototype.split` with a one-character separator, on
strings. -/
def splitOnCharStr (sep : Char) (s : String) : List String :=
  (splitOnChar sep s.data).map String.mk

/-- Computation `contentType.split(";")[0].trim().toLowerCase()` — the base media type
of a content-type header value, as computed by the webhook endpoint. -/
def baseMediaType (s : String) : String :=
  String.mk ((jsTrimChars (s.data.takeWhile (fun c => c ≠ ';'))).map Char.toLower)

/-- JavaScript string truthiness on an optional string: `undefined` and the
empty string are falsy. -/
def jsTruthy (o : Option String) : Option String :=
  match o with
  | none => none
  | some s => if s = "" then none else some s

/-- JavaScript `parseInt(s, 10)`: skip leading whitespace, read an optional
sign and then the longest digit run; `none` models `NaN`. -/
def parseIntJS (s : String) : Option Int :=
  let cs := s.data.dropWhile Char.isWhitespace
  let signAndRest : Int × List Char :=
    match cs with
    | '-' :: r => (-1, r)
    | '+' :: r => (1, r)
    | r => (1, r)
  let digits := signAndRest.2.takeWhile Char.isDigit
  if digits = [] then none
  else some (signAndRest.1 * (digits.foldl (fun a c => a * 10 + (c.toNat - 48)) 0 : Nat))

/-! ## Customer directory (src/data/customers.json)

The directory is deployment configuration imported as static JSON; the code
treats it as an immutable list of customer records, so the embedding passes
it around as an explicit parameter.  An absent `outlets` field behaves like
the empty list (`c.outlets?.includes(x)` is falsy when `outlets` is
`undefined`), so `outlets` is modelled as a plain list. -/

structure Customer where
  id : String
  data_format : String
  outlets : List String
deriving DecidableEq, Repr

/-- Constant `VALID_TYPES = ["esl"]` from src/endpoints/webhook.ts. -/
def VALID_TYPES : List String := ["esl"]

/-- The `CONTENT_TYPE_EXTENSIONS` record of src/endpoints/webhook.ts as a
lookup function (`none` models an absent key). -/
def CONTENT_TYPE_EXTENSIONS (s : String) : Option String :=
  if s = "application/json" then some "json"
  else if s = "application/xml" then some "xml"
  else if s = "text/xml" then some "xml"
  else if s = "text/csv" then some "csv"
  else if s = "text/plain" then some "txt"
  else if s = "application/x-www-form-urlencoded" then some "form"
  else if s = "multipart/form-data" then some "form"
  else if s = "application/octet-stream" then some "bin"
  else none

/-- The `CONTENT_TYPE_TO_FORMAT` record of src/endpoints/webhook.ts. -/
def CONTENT_TYPE_TO_FORMAT (s : String) : Option String :=
  if s = "text/csv" then some "csv"
  else if s = "text/plain" then some "text"
  else if s = "application/json" then some "json"
  else if s = "application/xml" then some "xml"
  else if s = "text/xml" then some "xml"
  else none

/-- Function `findCustomerByIdOrOutlet` from src/endpoints/webhook.ts: search by
primary id first, then by outlet membership. -/
def findCustomerByIdOrOutlet (dir : List Customer) (customerId : String) : Option Customer :=
  match dir.find? (fun c => c.id == customerId) with
  | some c => some c
  | none => dir.find? (fun c => c.outlets.contains customerId)

/-- Function `isDataFormatAllowed` from src/endpoints/webhook.ts.  The content type
is optional; the code's `!contentType` guard is falsy both for an absent
header and for the empty string. -/
def isDataFormatAllowed (customer : Customer) (contentType : Option String) : Bool :=
  if customer.data_format = "all" then true
  else
    match contentType with
    | none => false
    | some ct =>
      if ct = "" then false
      else CONTENT_TYPE_TO_FORMAT (baseMediaType ct) == some customer.data_format

/-- Function `getExtensionFromContentType` from src/endpoints/webhook.ts. -/
def getExtensionFromContentType (contentType : Option String) : String :=
  match contentType with
  | none => "bin"
  | some ct =>
    if ct = "" then "bin"
    else (CONTENT_TYPE_EXTENSIONS (baseMediaType ct)).getD "bin"

/-- Function `isValidCustomerId` from src/endpoints/webhook.ts: the regular
expression `^[a-zA-Z0-9_-]{1,64}$`. -/
def isValidCustomerId (s : String) : Bool :=
  decide (1 ≤ s.data.length) && decide (s.data.length ≤ 64) &&
    s.data.all (fun c => c.isAlpha || c.isDigit || c = '_' || c = '-')

/-! ## UUID generation and validation

`crypto.randomUUID()` is a platform primitive; its WebCrypto specification
returns a random version-4 UUID in lowercase hexadecimal,
`xxxxxxxx-xxxx-4xxx-yxxx-xxxxxxxxxxxx` with `y` one of `8,9,a,b`.  It is
modelled as a deterministic function of an externally supplied random
natural number. -/

/-- The lowercase hexadecimal digit of `n % 16`. -/
def hexDigitChar (n : Nat) : Char :=
  ("0123456789abcdef".data).getD (n % 16) '0'

/-- A run of `len` lowercase hexadecimal digits taken from the low bits of
`r`. -/
def hexChars : Nat → Nat → List Char
  | _, 0 => []
  | r, len + 1 => hexDigitChar r :: hexChars (r / 16) len

/-- The character list of a version-4 UUID built from the random input
`r`: groups of 8, 4, 4, 4 and 12 hexadecimal digits, the third group
starting with the version digit `4` (its seed is `16 * b + 4`, so its
first digit is `4`) and the fourth with a variant digit in `8..b`. -/
def uuidChars (r : Nat) : List Char :=
  hexChars r 8 ++ '-' ::
    (hexChars (r / 2 ^ 32) 4 ++ '-' ::
      (hexChars (16 * (r / 2 ^ 48) + 4) 4 ++ '-' ::
        (hexChars (16 * (r / 2 ^ 62) + (8 + (r / 2 ^ 60) % 4)) 4 ++ '-' ::
          hexChars (r / 2 ^ 74) 12)))

/-- Model of `crypto.randomUUID()` applied to the random input `r`. -/
def randomUUID (r : Nat) : String :=
  String.mk (uuidChars r)

/-- A hexadecimal digit in either case, i.e. the character class
`[0-9a-fA-F]` (`isValidUUID` in webhookManagement.ts matches with the `i`
flag). -/
def isHexChar (c : Char) : Bool :=
  c.isDigit || ('a' ≤ c && c ≤ 'f') || ('A' ≤ c && c ≤ 'F')

/-- Consume exactly `n` hexadecimal characters from the front of `cs`,
returning the rest, or `none` when that fails. -/
def hexRun : Nat → List Char → Option (List Char)
  | 0, cs => some cs
  | _ + 1, [] => none
  | n + 1, c :: cs => if isHexChar c then hexRun n cs else none

/-- Function `isValidUUID` from src/endpoints/webhookManagement.ts: the anchored
regular expression
`^[0-9a-f]{8}-[0-9a-f]{4}-[0-9a-f]{4}-[0-9a-f]{4}-[0-9a-f]{12}$` with the
case-insensitive flag, rendered as a structural matcher over the character
list. -/
def isValidUUIDChars (cs : List Char) : Bool :=
  match hexRun 8 cs with
  | some ('-' :: r1) =>
    match hexRun 4 r1 with
    | some ('-' :: r2) =>
      match hexRun 4 r2 with
      | some ('-' :: r3) =>
        match hexRun 4 r3 with
        | some ('-' :: r4) => hexRun 12 r4 == some []
        | _ => false
      | _ => false
    | _ => false
  | _ => false

/-- Function `isValidUUID` on strings. -/
def isValidUUID (s : String) : Bool :=
  isValidUUIDChars s.data

/-! ## Dates -/

/-- The UTC calendar-date components of a point in time (what
`new Date()` captures, restricted to the fields `toISOString` prints before
the `T`). -/
structure UTCDate where
  year : Nat
  month : Nat
  day : Nat
deriving DecidableEq, Repr

/-- Zero-pad a numeral to two digits, as `toISOString` does for month and
day fields. -/
def pad2 (n : Nat) : String :=
  if n < 10 then "0" ++ toString n else toString n

/-- Zero-pad a numeral to four digits, as `toISOString` does for the year
field. -/
def pad4 (n : Nat) : String :=
  if n < 10 then "000" ++ toString n
  else if n < 100 then "00" ++ toString n
  else if n < 1000 then "0" ++ toString n
  else toString n

/-- Function `formatDate` from src/endpoints/webhook.ts:
`date.toISOString().split("T")[0]`, i.e. the UTC date in `YYYY-MM-DD`
form. -/
def formatDate (d : UTCDate) : String :=
  pad4 d.year ++ "-" ++ pad2 d.month ++ "-" ++ pad2 d.day

/-! ## The ingestion pipeline (`handleWebhook`) -/

/-- Outcome of the webhook handler: either the success JSON
(`webhookId`, `storagePath`) or a thrown `HTTPException` with the given
status. -/
inductive HandlerResult where
  | success (webhookId storagePath : String)
  | httpError (status : Nat)
deriving DecidableEq, Repr

/-- A run of `handleWebhook` together with its effect on the blob store:
`putKey` is the key passed to `WEBHOOK_BUCKET.put`, or `none` when the
handler terminated before reaching the write. -/
structure IngestOutcome where
  result : HandlerResult
  putKey : Option String
deriving DecidableEq, Repr

/-- Function `handleWebhook` from src/endpoints/webhook.ts as a pure function.
External inputs: the customer directory `dir`, the two path parameters,
the `Content-Type` header, the byte length of the request body, the
randomness `r` feeding `crypto.randomUUID`, the UTC date `now` at call
time, and whether the R2 `put` call succeeds (`storeOk`). -/
def handleWebhook (dir : List Customer) (ty customer_id : String)
    (contentType : Option String) (bodyLen : Nat) (r : Nat) (now : UTCDate)
    (storeOk : Bool) : IngestOutcome :=
  if ¬ ty ∈ VALID_TYPES then ⟨.httpError 400, none⟩
  else if ¬ isValidCustomerId customer_id then ⟨.httpError 400, none⟩
  else
    match findCustomerByIdOrOutlet dir customer_id with
    | none => ⟨.httpError 404, none⟩
    | some customer =>
      if ¬ isDataFormatAllowed customer contentType then ⟨.httpError 415, none⟩
      else if bodyLen = 0 then ⟨.httpError 400, none⟩
      else
        let webhookId := randomUUID r
        let storagePath :=
          ty ++ "/" ++ customer_id ++ "/" ++ formatDate now ++ "/" ++ webhookId ++ "."
            ++ getExtensionFromContentType contentType
        if storeOk then ⟨.success webhookId storagePath, some storagePath⟩
        else ⟨.httpError 500, some storagePath⟩

/-! ## Authentication middleware (src/middleware/auth.ts) -/

/-- Outcome of a Hono middleware guard: either hand over to the next
handler or answer immediately with an HTTP status and the private numeric
error code of the JSON error envelope. -/
inductive GuardResult where
  | next
  | reject (status code : Nat)
deriving DecidableEq, Repr

/-- Function `timingSafeEqual` from src/middleware/auth.ts, at the byte level: an
early length check, then an OR-accumulation of the XOR of every byte
pair.  Secrets are byte sequences (`List Nat`); for these the JavaScript
string length equals the byte count. -/
def timingSafeEqual (a b : List Nat) : Bool :=
  if a.length ≠ b.length then false
  else ((List.zipWith (fun x y => x ^^^ y) a b).foldl (fun acc x => acc ||| x) 0) == 0

/-- The UTF-8 bytes of the string `"Bearer "`. -/
def bearerBytes : List Nat := [66, 101, 97, 114, 101, 114, 32]

/-- Expression `authHeader.startsWith("Bearer ") ? authHeader.slice(7) : authHeader`
from src/middleware/auth.ts. -/
def stripBearer (h : List Nat) : List Nat :=
  if h.take 7 == bearerBytes then h.drop 7 else h

/-- A value that the JavaScript property access `customerTokens[customerId]`
can produce on an object returned by `JSON.parse`: an own entry (a JSON
string, as bytes), a function inherited from `Object.prototype` (carrying
its arity — the value of its `length` property — and the bytes of its
string conversion), or the plain object produced by the inherited
`__proto__` accessor. -/
inductive JsTokenValue where
  | str (bytes : List Nat)
  | fn (arity : Nat) (src : List Nat)
  | obj
deriving DecidableEq, Repr

/-- The byte sequence `String(f)` yields in V8 (the engine under Cloudflare
Workers) for a built-in function named `name`:
`function name() \x7b [native code] \x7d`. -/
def fnSrcBytes (name : String) : List Nat :=
  ("function " ++ name ++ "() \x7b [native code] \x7d").data.map Char.toNat

/-- The properties every `JSON.parse` result inherits from
`Object.prototype`, with each built-in function's arity (`constructor` is
the `Object` function). -/
def objectProtoProps : List (String × JsTokenValue) :=
  [("constructor", .fn 1 (fnSrcBytes "Object")),
   ("hasOwnProperty", .fn 1 (fnSrcBytes "hasOwnProperty")),
   ("isPrototypeOf", .fn 1 (fnSrcBytes "isPrototypeOf")),
   ("propertyIsEnumerable", .fn 1 (fnSrcBytes "propertyIsEnumerable")),
   ("toLocaleString", .fn 0 (fnSrcBytes "toLocaleString")),
   ("toString", .fn 0 (fnSrcBytes "toString")),
   ("valueOf", .fn 0 (fnSrcBytes "valueOf")),
   ("__defineGetter__", .fn 2 (fnSrcBytes "__defineGetter__")),
   ("__defineSetter__", .fn 2 (fnSrcBytes "__defineSetter__")),
   ("__lookupGetter__", .fn 1 (fnSrcBytes "__lookupGetter__")),
   ("__lookupSetter__", .fn 1 (fnSrcBytes "__lookupSetter__")),
   ("__proto__", .obj)]

/-- JavaScript property access `customerTokens[customerId]` on an object
produced by `JSON.parse`: an own entry shadows the prototype chain
(`JSON.parse` defines even a `"__proto__"` key as an own data property);
otherwise the access walks up to `Object.prototype` and can return an
inherited function or object; `none` models `undefined`. -/
def jsObjectGet (tokens : List (String × List Nat)) (key : String) : Option JsTokenValue :=
  match tokens.lookup key with
  | some v => some (.str v)
  | none => objectProtoProps.lookup key

/-- JavaScript falsiness of `expectedToken` in `if (!expectedToken)`: the
empty string is falsy, every function and object is truthy. -/
def jsTokenValueFalsy : JsTokenValue → Bool
  | .str [] => true
  | .str (_ :: _) => false
  | .fn _ _ => false
  | .obj => false

/-- What the `timingSafeEqual(token, expectedToken)` call does at runtime
when `expectedToken` came from the property access (the TypeScript
signature says `string`, but an inherited value is a function or object):
for a string it is `timingSafeEqual`; for a function, `b.length` is the
arity, and when it equals the token's length the loop XOR-compares the
token's bytes against `encoder.encode(String(b))`, i.e. the function's
source text; for a plain object `b.length` is `undefined`, which never
equals a number, so the comparison fails. -/
def timingSafeEqualJs (a : List Nat) (b : JsTokenValue) : Bool :=
  match b with
  | .str bs => timingSafeEqual a bs
  | .fn arity src =>
    if a.length ≠ arity then false
    else ((List.range a.length).map (fun i => Nat.xor (a.getD i 0) (src.getD i 0))).foldl
      (fun acc x => acc ||| x) 0 == 0
  | .obj => false

/-- Function `tokenAuthentication` from src/middleware/auth.ts.  `raw` is the
`CUSTOMER_TOKENS` environment string; `parsed` is the outcome of the
external `JSON.parse(raw)` call (`none` models a thrown parse error);
`customer_id` is the path parameter; `authHeader` is the `Authorization`
header, with an absent or empty (falsy) header modelled as `none` and
token values as byte sequences.  The token lookup is JavaScript property
access, so it can hit `Object.prototype` members. -/
def tokenAuthentication (raw : String)
    (parsed : Option (List (String × List Nat)))
    (customer_id : Option String) (authHeader : Option (List Nat)) : GuardResult :=
  if jsTrimStr raw = "" then .next
  else
    match customer_id with
    | none => .reject 400 4003
    | some cid =>
      match parsed with
      | none => .reject 500 5002
      | some customerTokens =>
        match jsObjectGet customerTokens cid with
        | none => .reject 403 4033
        | some expectedToken =>
          if jsTokenValueFalsy expectedToken then .reject 403 4033
          else
            match authHeader with
            | none => .reject 401 4011
            | some h =>
              if timingSafeEqualJs (stripBearer h) expectedToken then .next
              else .reject 401 4012

/-- The client IP as resolved by `ipValidation`:
`CF-Connecting-IP || X-Forwarded-For?.split(",")[0]?.trim()`, with the
final `if (!clientIp)` falsiness collapse applied (an empty resolved
string counts as unresolved). -/
def resolveClientIp (cfIp xff : Option String) : Option String :=
  match jsTruthy cfIp with
  | some c => some c
  | none =>
    match xff with
    | none => none
    | some x => jsTruthy (some (jsTrimStr ((splitOnCharStr ',' x).getD 0 "")))

/-- The allow-list derived from the `ALLOWED_IPS` environment string:
split on commas, trim each entry, drop empties. -/
def allowedIpList (allowedIps : String) : List String :=
  ((splitOnCharStr ',' allowedIps).map jsTrimStr).filter (fun ip => ip ≠ "")

/-- Function `ipValidation` from src/middleware/auth.ts. -/
def ipValidation (allowedIps : String) (cfIp xff : Option String) : GuardResult :=
  if jsTrimStr allowedIps = "" then .next
  else
    match resolveClientIp cfIp xff with
    | none => .reject 403 4031
    | some clientIp =>
      if (allowedIpList allowedIps).contains clientIp then .next
      else .reject 403 4032

/-! ## Audit middleware (src/middleware/audit.ts)

The middleware is installed with `app.use("*", auditMiddleware)`, so it
wraps every route, the guards, the handlers and the global `onError`
boundary included: in Hono a fault thrown downstream is converted to a
response by `onError` before control returns to `await next()` in the
middleware.  The downstream outcome is therefore modelled as a value the
middleware observes after `next()` resolves. -/

/-- The request data the audit middleware reads. -/
structure AuditReq where
  method : String
  path : String
  cfIp : Option String
  xff : Option String
  userAgent : Option String
  contentType : Option String
  contentLength : Option String
deriving Repr

/-- What the downstream chain (guards, handler, `onError`) left behind:
either a response with the context variables the handlers set, or an
unhandled fault that the global `onError` boundary turned into a 500 with
`auditErrorMessage = "Internal Server Error"`. -/
inductive Downstream where
  | response (status : Nat) (auditWebhookId auditErrorMessage : Option String)
  | fault (auditWebhookId : Option String)
deriving Repr

/-- The response status and audit context variables after `await next()`
returns, the `onError` conversion of faults included
(src/index.ts `app.onError`). -/
def settleDownstream : Downstream → Nat × Option String × Option String
  | .response s w e => (s, w, e)
  | .fault w => (500, w, some "Internal Server Error")

/-- One audit value as built by `auditMiddleware` (the KV value without
the timing fields, which are wall-clock readings). -/
structure AuditValue where
  method : String
  path : String
  statusCode : Nat
  customerId : Option String
  sourceIp : Option String
  userAgent : Option String
  contentType : Option String
  requestSize : Option Int
  errorMessage : Option String
  webhookId : Option String
deriving Repr

/-- The `customerId` extraction of `auditMiddleware`: split the path on
`/` and take the fourth part when the second is `webhook`. -/
def auditCustomerId (path : String) : Option String :=
  let pathParts := splitOnCharStr '/' path
  if pathParts.getD 1 "" = "webhook" ∧ 4 ≤ pathParts.length then
    some (pathParts.getD 3 "")
  else none

/-- Function `auditMiddleware` from src/middleware/audit.ts, returning the list of
audit entries the request emits to the KV store (`waitUntil(AUDIT_KV.put …)`
calls): after the downstream chain finishes, requests whose path is
`/manage/audit` emit nothing, every other request emits exactly the one
entry built from the request and response data. -/
def auditMiddleware (req : AuditReq) (d : Downstream) : List AuditValue :=
  let s := settleDownstream d
  if req.path = "/manage/audit" then []
  else
    [{ method := req.method
       path := req.path
       statusCode := s.1
       customerId := auditCustomerId req.path
       sourceIp :=
         match jsTruthy req.cfIp with
         | some c => some c
         | none =>
           match req.xff with
           | none => none
           | some x => jsTruthy (some (jsTrimStr ((splitOnCharStr ',' x).getD 0 "")))
       userAgent := req.userAgent
       contentType := req.contentType
       requestSize := (jsTruthy req.contentLength).bind parseIntJS
       errorMessage := s.2.2
       webhookId := s.2.1 }]

/-! ## Management listing (src/endpoints/webhookManagement.ts) -/

/-- The shared limit computation of `listWebhooks` and `listAuditLogs`:
`limitStr ? Math.min(Math.max(parseInt(limitStr, 10) || 100, 1), 1000) : 100`.
A falsy (absent or empty) parameter yields the default 100; `parseInt`
results that are `NaN` or `0` are falsy and replaced by 100 before the
clamp to `[1, 1000]`. -/
def parseLimit (limitStr : Option String) : Int :=
  match jsTruthy limitStr with
  | none => 100
  | some s =>
    let p : Int :=
      match parseIntJS s with
      | none => 100
      | some v => if v = 0 then 100 else v
    min (max p 1) 1000

/-- The regular expression `^\d{4}-\d{2}-\d{2}$` used to validate date
query parameters. -/
def isDatePattern (s : String) : Bool :=
  match s.data with
  | [a, b, c, d, e, f, g, h, i, j] =>
    a.isDigit && b.isDigit && c.isDigit && d.isDigit && e = '-' &&
      f.isDigit && g.isDigit && h = '-' && i.isDigit && j.isDigit
  | _ => false

/-- The hierarchical R2 listing prefix of `listWebhooks`: `customer_id` is
only honoured when `type` is present, `date` only when both are. -/
def r2KeyPfx (ty cid date : Option String) : String :=
  match ty with
  | none => ""
  | some t =>
    t ++
      match cid with
      | none => ""
      | some c =>
        "/" ++ c ++
          match date with
          | none => ""
          | some d => "/" ++ d

/-- Function `listWebhooks` from src/endpoints/webhookManagement.ts, modelled over
the bucket contents `objects` (the stored keys, in listing order) with the
pagination cursor as a skip count; `none` models a thrown 400
`HTTPException`, `some keys` the listed page. -/
def listWebhooks (objects : List String) (ty cid date limitStr : Option String)
    (cursor : Nat) : Option (List String) :=
  if (jsTruthy ty).any (fun t => !(VALID_TYPES.contains t)) then none
  else if (jsTruthy date).any (fun d => !(isDatePattern d)) then none
  else
    let limit := (parseLimit limitStr).toNat
    let pfx := r2KeyPfx (jsTruthy ty) (jsTruthy cid) (jsTruthy date)
    some (((objects.filter (fun k => k.data.take pfx.data.length == pfx.data)).drop
      cursor).take limit)

/-- One audit record as stored in the KV store: its key
(`audit:{date}:{timestamp}:{uuid}`) and the value fields the listing
filters on. -/
structure AuditKVEntry where
  key : String
  customerId : Option String
  statusCode : Int
  timestampMs : Nat
deriving DecidableEq, Repr

/-- The collection loop of `listAuditLogs`: walk the KV keys in listing
order, skip keys with fewer than three `:`-separated parts, apply the
date-range, customer and status filters, and stop once `limit` entries
are collected.  `statusFilter` is `none` when no `status_code` parameter
was given, and otherwise carries the `parseInt` outcome (`some none`
models `NaN`, which matches no entry). -/
def collectAuditLogs (customerId : Option String) (statusFilter : Option (Option Int))
    (fromQ toQ : Option String) (limit : Nat) :
    List AuditKVEntry → List AuditKVEntry → List AuditKVEntry
  | acc, [] => acc
  | acc, e :: rest =>
    if limit ≤ acc.length then acc
    else
      let parts := splitOnCharStr ':' e.key
      if parts.length < 3 then collectAuditLogs customerId statusFilter fromQ toQ limit acc rest
      else
        let keyDate := parts.getD 1 ""
        if fromQ.any (fun f => decide (keyDate < f)) then
          collectAuditLogs customerId statusFilter fromQ toQ limit acc rest
        else if toQ.any (fun t => decide (t < keyDate)) then
          collectAuditLogs customerId statusFilter fromQ toQ limit acc rest
        else if customerId.any (fun c => e.customerId ≠ some c) then
          collectAuditLogs customerId statusFilter fromQ toQ limit acc rest
        else if statusFilter.any (fun n => n ≠ some e.statusCode) then
          collectAuditLogs customerId statusFilter fromQ toQ limit acc rest
        else collectAuditLogs customerId statusFilter fromQ toQ limit (acc ++ [e]) rest

/-- Insertion into a list sorted by descending timestamp. -/
def insertByTsDesc (x : AuditKVEntry) : List AuditKVEntry → List AuditKVEntry
  | [] => [x]
  | y :: ys => if y.timestampMs ≤ x.timestampMs then x :: y :: ys else y :: insertByTsDesc x ys

/-- The `logs.sort(...)` step of `listAuditLogs`: sort by timestamp,
newest first. -/
def sortByTsDesc : List AuditKVEntry → List AuditKVEntry
  | [] => []
  | x :: xs => insertByTsDesc x (sortByTsDesc xs)

/-- Function `listAuditLogs` from src/endpoints/webhookManagement.ts, modelled over
the KV contents `entries` (in listing order); `none` models a thrown 400
`HTTPException` for a malformed date parameter, `some logs` the
(sorted, `slice(0, limit)`-truncated) response. -/
def listAuditLogs (entries : List AuditKVEntry)
    (customer_id status_code fromQ toQ limitStr : Option String) :
    Option (List AuditKVEntry) :=
  if (jsTruthy fromQ).any (fun f => !(isDatePattern f)) then none
  else if (jsTruthy toQ).any (fun t => !(isDatePattern t)) then none
  else
    let limit := (parseLimit limitStr).toNat
    let statusFilter := (jsTruthy status_code).map parseIntJS
    some ((sortByTsDesc
      (collectAuditLogs (jsTruthy customer_id) statusFilter (jsTruthy fromQ) (jsTruthy toQ)
        limit [] entries)).take limit)

/-- The extension table as the specification words it: after stripping
media-type parameters, `application/json → json`,
`application/xml | text/xml → xml`, `text/csv → csv`, `text/plain → txt`,
the form types → `form`, and `bin` for an unrecognized or absent
content-type.  Stated independently of the code's
`CONTENT_TYPE_EXTENSIONS` record so the two can be compared. -/
def extSpec (contentType : Option String) : String :=
  match contentType with
  | none => "bin"
  | some ct =>
    if baseMediaType ct = "application/json" then "json"
    else if baseMediaType ct = "application/xml" then "xml"
    else if baseMediaType ct = "text/xml" then "xml"
    else if baseMediaType ct = "text/csv" then "csv"
    else if baseMediaType ct = "text/plain" then "txt"
    else if baseMediaType ct = "application/x-www-form-urlencoded" then "form"
    else if baseMediaType ct = "multipart/form-data" then "form"
    else "bin"

/-! ## Helper lemmas -/

theorem isHexChar_hexDigitChar (n : Nat) : isHexChar (hexDigitChar n) = true := by
  have h : n % 16 < 16 := Nat.mod_lt _ (by norm_num)
  unfold hexDigitChar
  set m := n % 16 with hm
  interval_cases m <;> decide

theorem hexRun_hexChars (n : Nat) : ∀ (r : Nat) (tail : List Char),
    hexRun n (hexChars r n ++ tail) = some tail := by
  induction n with
  | zero => intro r tail; simp [hexChars, hexRun]
  | succ k ih => intro r tail; simp [hexChars, hexRun, isHexChar_hexDigitChar, ih]

theorem hexRun_hexChars_nil (n r : Nat) : hexRun n (hexChars r n) = some [] := by
  simpa using hexRun_hexChars n r []

theorem isValidUUID_randomUUID (r : Nat) : isValidUUID (randomUUID r) = true := by
  simp [isValidUUID, randomUUID, isValidUUIDChars, uuidChars, hexRun_hexChars,
    hexRun_hexChars_nil]

theorem lor_eq_zero_iff (a b : Nat) : a ||| b = 0 ↔ a = 0 ∧ b = 0 := by
  constructor
  · intro h
    constructor
    · apply Nat.zero_of_testBit_eq_false
      intro i
      have hb := congrArg (fun x => Nat.testBit x i) h
      simp only [Nat.testBit_lor, Nat.zero_testBit, Bool.or_eq_false_iff] at hb
      exact hb.1
    · apply Nat.zero_of_testBit_eq_false
      intro i
      have hb := congrArg (fun x => Nat.testBit x i) h
      simp only [Nat.testBit_lor, Nat.zero_testBit, Bool.or_eq_false_iff] at hb
      exact hb.2
  · rintro ⟨rfl, rfl⟩; rfl

theorem foldl_lor_eq_zero (xs : List Nat) (acc : Nat) :
    xs.foldl (fun a x => a ||| x) acc = 0 ↔ acc = 0 ∧ ∀ x ∈ xs, x = 0 := by
  induction xs generalizing acc with
  | nil => simp
  | cons y ys ih =>
    simp only [List.foldl_cons, ih, lor_eq_zero_iff, List.mem_cons]
    constructor
    · rintro ⟨⟨h1, h2⟩, h3⟩
      exact ⟨h1, fun x hx => hx.elim (fun hxy => hxy ▸ h2) (h3 x)⟩
    · rintro ⟨h1, h2⟩
      exact ⟨⟨h1, h2 y (Or.inl rfl)⟩, fun x hx => h2 x (Or.inr hx)⟩

theorem zipWith_xor_eq_nil_iff (a : List Nat) : ∀ b : List Nat, a.length = b.length →
    ((∀ x ∈ List.zipWith (fun x y => x ^^^ y) a b, x = 0) ↔ a = b) := by
  induction a with
  | nil =>
    intro b hlen
    cases b with
    | nil => simp
    | cons y ys => simp at hlen
  | cons x xs ih =>
    intro b hlen
    cases b with
    | nil => simp at hlen
    | cons y ys =>
      simp only [List.length_cons, Nat.succ_inj] at hlen
      simp only [List.zipWith_cons_cons, List.mem_cons, List.cons.injEq]
      constructor
      · intro h
        have hx : x = y := Nat.xor_eq_zero.mp (h _ (Or.inl rfl))
        exact ⟨hx, (ih ys hlen).mp (fun z hz => h z (Or.inr hz))⟩
      · rintro ⟨rfl, rfl⟩
        intro z hz
        rcases hz with hz | hz
        · exact hz.trans (Nat.xor_self x)
        · exact ((ih xs hlen).mpr rfl) z hz

theorem timingSafeEqual_eq_iff (a b : List Nat) : timingSafeEqual a b = true ↔ a = b := by
  unfold timingSafeEqual
  by_cases h : a.length = b.length
  · simp only [h, ne_eq, not_true_eq_false, if_false, beq_iff_eq, foldl_lor_eq_zero,
      true_and]
    exact zipWith_xor_eq_nil_iff a b h
  · simp only [ne_eq, h, not_false_eq_true, if_true]
    constructor
    · intro hf; exact absurd hf (by simp)
    · intro hab; exact absurd (congrArg List.length hab) h

theorem getExtension_eq_extSpec (ct : Option String) :
    getExtensionFromContentType ct = extSpec ct := by
  cases ct with
  | none => rfl
  | some s =>
    by_cases hs : s = ""
    · subst hs; decide
    · simp only [getExtensionFromContentType, extSpec, CONTENT_TYPE_EXTENSIONS]
      rw [if_neg hs]
      split_ifs <;> rfl

theorem handleWebhook_success_inv (dir : List Customer) (ty cid : String)
    (ct : Option String) (blen r : Nat) (now : UTCDate) (ok : Bool) (wid path : String)
    (h : (handleWebhook dir ty cid ct blen r now ok).result = .success wid path) :
    wid = randomUUID r ∧
      path = ty ++ "/" ++ cid ++ "/" ++ formatDate now ++ "/" ++ randomUUID r ++ "."
        ++ getExtensionFromContentType ct := by
  unfold handleWebhook at h
  split at h
  · simp at h
  · split at h
    · simp at h
    · split at h
      · simp at h
      · split at h
        · simp at h
        · split at h
          · simp at h
          · split at h
            · simp only [HandlerResult.success.injEq] at h
              exact ⟨h.1.symm, h.2.symm⟩
            · simp at h

/-! ## The claims -/

/-- C1: for every ingestion request that passes all validation and whose
storage write succeeds, the returned `webhookId` is a valid UUID and the
returned `storagePath` equals `{type}/{customerId}/{date}/{webhookId}.{ext}`,
where `date` is the UTC calendar date at call time in `YYYY-MM-DD` form and
`ext` is derived from the fixed content-type table (json/xml/csv/txt/form),
defaulting to `bin` for an unrecognized or absent content-type; the code's
extension table agrees with the specification's table at every
content-type. -/
theorem C1_storage_path_format (dir : List Customer) (ty cid : String)
    (ct : Option String) (blen r : Nat) (now : UTCDate) (ok : Bool) (wid path : String) :
    getExtensionFromContentType ct = extSpec ct ∧
    ((handleWebhook dir ty cid ct blen r now ok).result = .success wid path →
      isValidUUID wid = true ∧
      path = ty ++ "/" ++ cid ++ "/" ++ formatDate now ++ "/" ++ wid ++ "." ++ extSpec ct) := by
  refine ⟨getExtension_eq_extSpec ct, fun h => ?_⟩
  obtain ⟨hw, hp⟩ := handleWebhook_success_inv dir ty cid ct blen r now ok wid path h
  subst hw
  exact ⟨isValidUUID_randomUUID r, by rw [hp, getExtension_eq_extSpec]⟩

/-- Witness for C1 at a concrete successful ingestion:
`POST /webhook/esl/mpl-zlin` with `Content-Type: text/csv`, a 5-byte body,
random input 0 and call date 2024-01-07. -/
theorem C1_storage_path_format_witness :
    isValidUUID "00000000-0000-4000-8000-000000000000" = true ∧
    "esl/mpl-zlin/2024-01-07/00000000-0000-4000-8000-000000000000.csv" =
      "esl" ++ "/" ++ "mpl-zlin" ++ "/" ++ formatDate ⟨2024, 1, 7⟩ ++ "/"
        ++ "00000000-0000-4000-8000-000000000000" ++ "." ++ extSpec (some "text/csv") :=
  (C1_storage_path_format [⟨"mpl-zlin", "csv", []⟩] "esl" "mpl-zlin" (some "text/csv") 5 0
      ⟨2024, 1, 7⟩ true "00000000-0000-4000-8000-000000000000"
      "esl/mpl-zlin/2024-01-07/00000000-0000-4000-8000-000000000000.csv").2 (by decide)

/-- C2: every inbound request produces exactly one audit entry as a
post-response side effect — whether the downstream chain succeeded, was
rejected by a guard, or threw a fault that the global error boundary
converted — except a request whose path is `/manage/audit`, which produces
none. -/
theorem C2_exactly_one_audit_entry (req : AuditReq) (d : Downstream) :
    (auditMiddleware req d).length = if req.path = "/manage/audit" then 0 else 1 := by
  unfold auditMiddleware
  by_cases h : req.path = "/manage/audit" <;> simp [h]

/-- C7: the token comparison returns false on length mismatch (the length
is checked before any byte comparison) and OR-accumulates byte XORs on
equal-length inputs, so it returns true exactly when the two byte strings
are identical. -/
theorem C7_timing_safe_equal (a b : List Nat) :
    timingSafeEqual a b = decide (a = b) := by
  by_cases hab : a = b
  · rw [decide_eq_true hab, (timingSafeEqual_eq_iff a b).mpr hab]
  · rw [decide_eq_false hab]
    cases hts : timingSafeEqual a b
    · rfl
    · exact absurd ((timingSafeEqual_eq_iff a b).mp hts) hab

/-- C3: a customer policy declaring format `all` passes any content-type
(including an absent one); for any other declared format `F` the check
passes exactly when the content-type's base media type (parameters
stripped, lowercased) maps under the canonical format table to `F`, and
the pipeline rejects with 415 when the check fails. -/
theorem C3_format_enforcement :
    (∀ cust : Customer, cust.data_format = "all" →
        ∀ ct, isDataFormatAllowed cust ct = true) ∧
    (∀ cust : Customer, cust.data_format ≠ "all" →
        isDataFormatAllowed cust none = false ∧
        ∀ s, (isDataFormatAllowed cust (some s) = true ↔
          CONTENT_TYPE_TO_FORMAT (baseMediaType s) = some cust.data_format)) ∧
    (∀ (dir : List Customer) (ty cid : String) (ct : Option String) (blen r : Nat)
        (now : UTCDate) (ok : Bool) (cust : Customer),
        ty ∈ VALID_TYPES → isValidCustomerId cid = true →
        findCustomerByIdOrOutlet dir cid = some cust →
        isDataFormatAllowed cust ct = false →
        handleWebhook dir ty cid ct blen r now ok = ⟨.httpError 415, none⟩) := by
  refine ⟨?_, ?_, ?_⟩
  · intro cust hall ct
    unfold isDataFormatAllowed
    rw [if_pos hall]
  · intro cust hne
    constructor
    · simp [isDataFormatAllowed, hne]
    · intro s
      by_cases hs : s = ""
      · subst hs
        simp [isDataFormatAllowed, hne, show CONTENT_TYPE_TO_FORMAT (baseMediaType "") = none
          from rfl]
      · simp [isDataFormatAllowed, hne, hs]
  · intro dir ty cid ct blen r now ok cust h1 h2 h3 h4
    simp [handleWebhook, h1, h2, h3, h4]

/-- Witness for C3: a customer configured for `all` accepts an arbitrary
content-type, a `csv` customer rejects an absent content-type, accepts
`text/csv; charset=utf-8` exactly because its base type maps to `csv`, and
a `csv` customer receiving `application/json` makes the pipeline answer
415. -/
theorem C3_format_enforcement_witness :
    isDataFormatAllowed ⟨"any", "all", []⟩ (some "application/pdf") = true ∧
    isDataFormatAllowed ⟨"mpl-zlin", "csv", []⟩ none = false ∧
    (isDataFormatAllowed ⟨"mpl-zlin", "csv", []⟩ (some "text/csv; charset=utf-8") = true ↔
      CONTENT_TYPE_TO_FORMAT (baseMediaType "text/csv; charset=utf-8") = some "csv") ∧
    handleWebhook [⟨"mpl-zlin", "csv", []⟩] "esl" "mpl-zlin" (some "application/json") 3 0
        ⟨2024, 1, 7⟩ true = ⟨.httpError 415, none⟩ := by
  refine ⟨C3_format_enforcement.1 ⟨"any", "all", []⟩ rfl (some "application/pdf"),
    (C3_format_enforcement.2.1 ⟨"mpl-zlin", "csv", []⟩ (by decide)).1,
    (C3_format_enforcement.2.1 ⟨"mpl-zlin", "csv", []⟩ (by decide)).2 "text/csv; charset=utf-8",
    C3_format_enforcement.2.2 [⟨"mpl-zlin", "csv", []⟩] "esl" "mpl-zlin"
      (some "application/json") 3 0 ⟨2024, 1, 7⟩ true ⟨"mpl-zlin", "csv", []⟩
      (by decide) (by decide) (by decide) (by decide)⟩

/-- C5 as stated is false: with a valid type and a (syntactically and
semantically) valid customer id, a zero-length body does not always yield
400 — the format check runs first, so a `csv`-only customer sent an empty
`application/json` request gets 415, not 400 (and an unknown id gets 404).
No object is written in either case. -/
theorem C5_counterexample :
    VALID_TYPES.contains "esl" = true ∧
    isValidCustomerId "mpl-zlin" = true ∧
    handleWebhook [⟨"mpl-zlin", "csv", []⟩] "esl" "mpl-zlin" (some "application/json") 0 0
        ⟨2024, 1, 7⟩ true = ⟨.httpError 415, none⟩ ∧
    HandlerResult.httpError 415 ≠ HandlerResult.httpError 400 := by decide

/-- C5 amended: for every ingestion request with a valid type and a valid
customer id that resolves to a customer whose format policy admits the
request's content-type, a zero-length body yields 400 and nothing is
written to the blob store. -/
theorem C5_empty_body_amended (dir : List Customer) (ty cid : String) (ct : Option String)
    (r : Nat) (now : UTCDate) (ok : Bool) (cust : Customer)
    (h1 : ty ∈ VALID_TYPES) (h2 : isValidCustomerId cid = true)
    (h3 : findCustomerByIdOrOutlet dir cid = some cust)
    (h4 : isDataFormatAllowed cust ct = true) :
    handleWebhook dir ty cid ct 0 r now ok = ⟨.httpError 400, none⟩ := by
  simp [handleWebhook, h1, h2, h3, h4]

/-- Witness for the amended C5: the spec's own scenario customer
(`mpl-zlin`, `csv`) with `Content-Type: text/csv` and an empty body gets
400 and no write. -/
theorem C5_empty_body_amended_witness :
    handleWebhook [⟨"mpl-zlin", "csv", []⟩] "esl" "mpl-zlin" (some "text/csv") 0 0
        ⟨2024, 1, 7⟩ true = ⟨.httpError 400, none⟩ :=
  C5_empty_body_amended [⟨"mpl-zlin", "csv", []⟩] "esl" "mpl-zlin" (some "text/csv") 0
    ⟨2024, 1, 7⟩ true ⟨"mpl-zlin", "csv", []⟩ (by decide) (by decide) (by decide) (by decide)

/-- C8: customer resolution tries a direct primary-id match first, so when
any customer carries the requested primary id the result is a primary
match (even if an earlier customer lists the id as an outlet alias);
resolution fails exactly when no customer has the id as primary id or
outlet alias, and the pipeline then rejects with 404 (writing nothing). -/
theorem C8_resolution_precedence :
    (∀ (dir : List Customer) (cid : String), (∃ c ∈ dir, c.id = cid) →
        ∃ c, findCustomerByIdOrOutlet dir cid = some c ∧ c.id = cid) ∧
    (∀ (dir : List Customer) (cid : String),
        findCustomerByIdOrOutlet dir cid = none ↔
          ∀ c ∈ dir, c.id ≠ cid ∧ ¬ cid ∈ c.outlets) ∧
    (∀ (dir : List Customer) (ty cid : String) (ct : Option String) (blen r : Nat)
        (now : UTCDate) (ok : Bool),
        ty ∈ VALID_TYPES → isValidCustomerId cid = true →
        findCustomerByIdOrOutlet dir cid = none →
        handleWebhook dir ty cid ct blen r now ok = ⟨.httpError 404, none⟩) := by
  refine ⟨?_, ?_, ?_⟩
  · rintro dir cid ⟨c, hc, hid⟩
    have hsome : (dir.find? (fun c => c.id == cid)).isSome :=
      List.find?_isSome.mpr ⟨c, hc, by simp [hid]⟩
    obtain ⟨c', hc'⟩ := Option.isSome_iff_exists.mp hsome
    refine ⟨c', ?_, ?_⟩
    · unfold findCustomerByIdOrOutlet
      rw [hc']
    · simpa using List.find?_some hc'
  · intro dir cid
    unfold findCustomerByIdOrOutlet
    cases hfind : dir.find? (fun c => c.id == cid) with
    | some c =>
      have hmem := List.mem_of_find?_eq_some hfind
      have hp : c.id = cid := by simpa using List.find?_some hfind
      constructor
      · intro hcontra
        exact absurd hcontra (by simp)
      · intro hall
        exact absurd hp (hall c hmem).1
    | none =>
      rw [List.find?_eq_none] at hfind ⊢
      constructor
      · intro hout c hc
        refine ⟨by simpa using hfind c hc, ?_⟩
        have := hout c hc
        simpa using this
      · intro hall c hc
        have := (hall c hc).2
        simpa using this
  · intro dir ty cid ct blen r now ok h1 h2 h3
    simp [handleWebhook, h1, h2, h3]

/-- Witness for C8: with a directory in which `alpha` lists `shop-1` as an
outlet alias but a later customer owns `shop-1` as primary id, resolution
of `shop-1` returns a primary match; an id matching nobody makes the
pipeline answer 404. -/
theorem C8_resolution_precedence_witness :
    (∃ c, findCustomerByIdOrOutlet
        [⟨"alpha", "all", ["shop-1"]⟩, ⟨"shop-1", "csv", []⟩] "shop-1" = some c ∧
        c.id = "shop-1") ∧
    handleWebhook [⟨"alpha", "all", ["shop-1"]⟩] "esl" "nobody" none 3 0 ⟨2024, 1, 7⟩ true =
      ⟨.httpError 404, none⟩ :=
  ⟨C8_resolution_precedence.1 [⟨"alpha", "all", ["shop-1"]⟩, ⟨"shop-1", "csv", []⟩] "shop-1"
      ⟨⟨"shop-1", "csv", []⟩, by decide, rfl⟩,
    C8_resolution_precedence.2.2 [⟨"alpha", "all", ["shop-1"]⟩] "esl" "nobody" none 3 0
      ⟨2024, 1, 7⟩ true (by decide) (by decide) (by decide)⟩

/-- Helper: an own entry that is a non-empty byte string is truthy. -/
theorem jsTokenValueFalsy_str (tok : List Nat) (h : tok ≠ []) :
    jsTokenValueFalsy (.str tok) = false := by
  cases tok with
  | nil => exact absurd rfl h
  | cons a l => rfl

/-- C4 as stated is false of the program in two ways.  First, the token
lookup is JavaScript property access, which walks the prototype chain: for
a `customer_id` naming an `Object.prototype` member the guard finds a
truthy inherited value and skips the 403/4033 branch even though no token
is configured — `constructor` with a missing header gets 401/4011, and
`toString` presented with the bare header `Bearer ` (an empty token, whose
length equals the inherited function's arity 0, so the XOR loop runs zero
times) is even authenticated.  Second, a configured empty-string token is
falsy and is routed to 403/4033 although the customer does have a
configured token equal to the presented empty token. -/
theorem C4_counterexample :
    List.lookup "toString" ([] : List (String × List Nat)) = none ∧
    tokenAuthentication "\x7b\x7d" (some []) (some "toString") (some bearerBytes) =
      .next ∧
    tokenAuthentication "\x7b\x7d" (some []) (some "constructor") none =
      .reject 401 4011 ∧
    List.lookup "c" [("c", ([] : List Nat))] = some [] ∧
    stripBearer bearerBytes = [] ∧
    tokenAuthentication "\x7b\x22c\x22:\x22\x22\x7d" (some [("c", [])]) (some "c")
      (some bearerBytes) = .reject 403 4033 ∧
    GuardResult.next ≠ GuardResult.reject 403 4033 := by decide

/-- C4 amended: when the token map is configured and the `customer_id` is
not one of the `Object.prototype` property names (for those, property
access finds a truthy inherited value, the unknown-customer branch is
skipped and the guard can even authenticate — see the counterexample), the
guard rejects 403/4033 when the customer id has no configured token or its
configured token is empty (falsy); otherwise it rejects 401/4011 when the
`Authorization` header is absent; otherwise it strips an optional
`Bearer ` prefix and passes exactly when the presented token equals the
configured one, rejecting 401/4012 on mismatch. -/
theorem C4_token_guard_amended (raw : String) (tokens : List (String × List Nat))
    (cid : String) (hraw : jsTrimStr raw ≠ "")
    (hproto : objectProtoProps.lookup cid = none) :
    ((tokens.lookup cid = none ∨ tokens.lookup cid = some []) →
        ∀ h, tokenAuthentication raw (some tokens) (some cid) h = .reject 403 4033) ∧
    (∀ tok, tokens.lookup cid = some tok → tok ≠ [] →
        tokenAuthentication raw (some tokens) (some cid) none = .reject 401 4011 ∧
        ∀ hdr,
          (tokenAuthentication raw (some tokens) (some cid) (some hdr) = .next ↔
            stripBearer hdr = tok) ∧
          (stripBearer hdr ≠ tok →
            tokenAuthentication raw (some tokens) (some cid) (some hdr) =
              .reject 401 4012)) := by
  constructor
  · rintro (hl | hl) h <;>
      simp [tokenAuthentication, jsObjectGet, jsTokenValueFalsy, hraw, hl, hproto]
  · intro tok hl htok
    have hfal := jsTokenValueFalsy_str tok htok
    refine ⟨by simp [tokenAuthentication, jsObjectGet, hraw, hl, hfal], fun hdr => ?_⟩
    have hiff := timingSafeEqual_eq_iff (stripBearer hdr) tok
    by_cases heq : stripBearer hdr = tok
    · have hts : timingSafeEqual (stripBearer hdr) tok = true := hiff.mpr heq
      exact ⟨by simp [tokenAuthentication, jsObjectGet, timingSafeEqualJs, hraw, hl,
          hfal, hts, heq, (timingSafeEqual_eq_iff tok tok).mpr rfl],
        fun hne => absurd heq hne⟩
    · have hts : timingSafeEqual (stripBearer hdr) tok = false := by
        cases h' : timingSafeEqual (stripBearer hdr) tok
        · rfl
        · exact absurd (hiff.mp h') heq
      exact ⟨by simp [tokenAuthentication, jsObjectGet, timingSafeEqualJs, hraw, hl,
          hfal, hts, heq],
        fun _ => by simp [tokenAuthentication, jsObjectGet, timingSafeEqualJs, hraw,
          hl, hfal, hts]⟩

/-- Witness for the amended C4, with the token map `acme ↦ secret`
(bytes of `secret`; neither `acme` nor `other` is an `Object.prototype`
member): a `Bearer secret` header passes, a wrong token is rejected
401/4012, an unconfigured customer id is rejected 403/4033, and a missing
header is rejected 401/4011. -/
theorem C4_token_guard_amended_witness :
    tokenAuthentication "\x7b\x22acme\x22:\x22secret\x22\x7d"
        (some [("acme", [115, 101, 99, 114, 101, 116])]) (some "acme")
        (some (bearerBytes ++ [115, 101, 99, 114, 101, 116])) = .next ∧
    tokenAuthentication "\x7b\x22acme\x22:\x22secret\x22\x7d"
        (some [("acme", [115, 101, 99, 114, 101, 116])]) (some "acme")
        (some [9, 9, 9]) = .reject 401 4012 ∧
    tokenAuthentication "\x7b\x22acme\x22:\x22secret\x22\x7d"
        (some [("acme", [115, 101, 99, 114, 101, 116])]) (some "other") none =
      .reject 403 4033 ∧
    tokenAuthentication "\x7b\x22acme\x22:\x22secret\x22\x7d"
        (some [("acme", [115, 101, 99, 114, 101, 116])]) (some "acme") none =
      .reject 401 4011 := by
  refine ⟨?_, ?_, ?_, ?_⟩
  · exact (((C4_token_guard_amended "\x7b\x22acme\x22:\x22secret\x22\x7d"
      [("acme", [115, 101, 99, 114, 101, 116])] "acme" (by decide) (by decide)).2
      [115, 101, 99, 114, 101, 116] (by decide) (by decide)).2
      (bearerBytes ++ [115, 101, 99, 114, 101, 116])).1.mpr (by decide)
  · exact (((C4_token_guard_amended "\x7b\x22acme\x22:\x22secret\x22\x7d"
      [("acme", [115, 101, 99, 114, 101, 116])] "acme" (by decide) (by decide)).2
      [115, 101, 99, 114, 101, 116] (by decide) (by decide)).2 [9, 9, 9]).2 (by decide)
  · exact (C4_token_guard_amended "\x7b\x22acme\x22:\x22secret\x22\x7d"
      [("acme", [115, 101, 99, 114, 101, 116])] "other" (by decide) (by decide)).1
      (Or.inl (by decide)) none
  · exact ((C4_token_guard_amended "\x7b\x22acme\x22:\x22secret\x22\x7d"
      [("acme", [115, 101, 99, 114, 101, 116])] "acme" (by decide) (by decide)).2
      [115, 101, 99, 114, 101, 116] (by decide) (by decide)).1

/-- C9 as stated is false at a whitespace-only configuration: the string
consisting of one space is non-empty and `JSON.parse` throws on it, but
the guard trims it first, treats the configuration as absent and passes
the request through instead of rejecting 500/5002. -/
theorem C9_counterexample :
    (" " : String) ≠ "" ∧ jsTrimStr " " = "" ∧
    tokenAuthentication " " none (some "acme") none = .next := by decide

/-- C9 amended: if the token configuration is non-empty after trimming but
not parseable as JSON, every webhook request carrying a `customer_id` path
parameter is rejected 500 with code 5002 before any token lookup or
comparison (the outcome does not depend on the header or on any token). -/
theorem C9_malformed_tokens_amended (raw cid : String) (h : Option (List Nat))
    (hraw : jsTrimStr raw ≠ "") :
    tokenAuthentication raw none (some cid) h = .reject 500 5002 := by
  simp [tokenAuthentication, hraw]

/-- Witness for the amended C9 at the unparseable configuration
`not-json`. -/
theorem C9_malformed_tokens_amended_witness :
    tokenAuthentication "not-json" none (some "acme") none = .reject 500 5002 :=
  C9_malformed_tokens_amended "not-json" "acme" none (by decide)

/-- C10: an allowed-IP configuration that is non-empty after trimming but
contains no non-empty entries once split on commas and trimmed activates
the guard with an empty allow-set, so every request is rejected: 403/4031
when no client IP is resolvable and 403/4032 for every resolvable one. -/
theorem C10_empty_allowlist (allowedIps : String) (cfIp xff : Option String)
    (h1 : jsTrimStr allowedIps ≠ "") (h2 : allowedIpList allowedIps = []) :
    (resolveClientIp cfIp xff = none →
        ipValidation allowedIps cfIp xff = .reject 403 4031) ∧
    (∀ ip, resolveClientIp cfIp xff = some ip →
        ipValidation allowedIps cfIp xff = .reject 403 4032) := by
  constructor
  · intro hr
    simp [ipValidation, h1, hr]
  · intro ip hr
    simp [ipValidation, h1, hr, h2]

/-- Witness for C10 at the configuration `", ,"` (only commas and a
space): no headers is rejected 4031, a resolvable client IP is rejected
4032. -/
theorem C10_empty_allowlist_witness :
    jsTrimStr ", ," ≠ "" ∧ allowedIpList ", ," = [] ∧
    ipValidation ", ," none none = .reject 403 4031 ∧
    ipValidation ", ," (some "203.0.113.5") none = .reject 403 4032 := by
  refine ⟨by decide, by decide, ?_, ?_⟩
  · exact (C10_empty_allowlist ", ," none none (by decide) (by decide)).1 (by decide)
  · exact (C10_empty_allowlist ", ," (some "203.0.113.5") none (by decide) (by decide)).2
      "203.0.113.5" (by decide)

theorem parseIntJS_ne_empty (s : String) (v : Int) (hv : parseIntJS s = some v) :
    s ≠ "" := by
  intro h
  subst h
  rw [show parseIntJS "" = none from rfl] at hv
  cases hv

theorem parseLimit_parsed (s : String) (v : Int) (hv : parseIntJS s = some v)
    (hnz : v ≠ 0) : parseLimit (some s) = min (max v 1) 1000 := by
  have hs : s ≠ "" := parseIntJS_ne_empty s v hv
  simp [parseLimit, jsTruthy, hs, hv, hnz]

theorem listAuditLogs_length_le (entries : List AuditKVEntry)
    (cq sq fq tq limitStr : Option String) (logs : List AuditKVEntry)
    (h : listAuditLogs entries cq sq fq tq limitStr = some logs) :
    logs.length ≤ (parseLimit limitStr).toNat := by
  unfold listAuditLogs at h
  split at h
  · cases h
  · split at h
    · cases h
    · rw [← Option.some.inj h]
      exact List.length_take_le _ _

theorem listWebhooks_length_le (objects : List String)
    (tyq cq dq limitStr : Option String) (cursor : Nat) (keys : List String)
    (h : listWebhooks objects tyq cq dq limitStr cursor = some keys) :
    keys.length ≤ (parseLimit limitStr).toNat := by
  unfold listWebhooks at h
  split at h
  · cases h
  · split at h
    · cases h
    · rw [← Option.some.inj h]
      exact List.length_take_le _ _

/-- C6 as stated is false at `limit=0`: `parseInt("0") || 100` is falsy,
so a limit of 0 — which is below 1 — is replaced by the default 100
instead of being clamped to 1, and a listing may return an entry even
though `min(0, 1000) = 0`. -/
theorem C6_counterexample :
    parseLimit (some "0") = 100 ∧ parseLimit (some "0") ≠ 1 ∧
    listAuditLogs [⟨"audit:2024-01-07:1000:aaaa", none, 200, 1000⟩] none none none none
        (some "0") = some [⟨"audit:2024-01-07:1000:aaaa", none, 200, 1000⟩] := by decide

/-- C6 amended: an absent limit defaults to 100 and a limit parsing to 0
(or not parsing at all) is replaced by the default 100; every other parsed
limit is clamped to `[1, 1000]`, and for a limit parsing to `N ≥ 1` both
listings (stored payloads and audit entries) return at most
`min(N, 1000)` entries. -/
theorem C6_limit_clamping :
    parseLimit none = 100 ∧
    (∀ (s : String) (v : Int), parseIntJS s = some v → v ≠ 0 →
        parseLimit (some s) = min (max v 1) 1000) ∧
    (∀ (s : String) (v : Int), parseIntJS s = some v → 1 ≤ v →
        (∀ entries cq sq fq tq logs,
            listAuditLogs entries cq sq fq tq (some s) = some logs →
            (logs.length : Int) ≤ min v 1000) ∧
        (∀ objects tyq cq dq cursor keys,
            listWebhooks objects tyq cq dq (some s) cursor = some keys →
            (keys.length : Int) ≤ min v 1000)) := by
  refine ⟨rfl, fun s v hv hnz => parseLimit_parsed s v hv hnz, ?_⟩
  intro s v hv h1
  have hnz : v ≠ 0 := by
    intro h
    rw [h] at h1
    exact absurd h1 (by decide)
  have hlim : parseLimit (some s) = min v 1000 := by
    rw [parseLimit_parsed s v hv hnz, max_eq_left h1]
  have hpos : (0 : Int) ≤ min v 1000 := le_min (le_trans (by decide) h1) (by decide)
  have hcast : ((parseLimit (some s)).toNat : Int) = min v 1000 := by
    rw [hlim, Int.toNat_of_nonneg hpos]
  constructor
  · intro entries cq sq fq tq logs h
    have hle := listAuditLogs_length_le entries cq sq fq tq (some s) logs h
    calc (logs.length : Int) ≤ ((parseLimit (some s)).toNat : Int) := by exact_mod_cast hle
      _ = min v 1000 := hcast
  · intro objects tyq cq dq cursor keys h
    have hle := listWebhooks_length_le objects tyq cq dq (some s) cursor keys h
    calc (keys.length : Int) ≤ ((parseLimit (some s)).toNat : Int) := by exact_mod_cast hle
      _ = min v 1000 := hcast

/-- Witness for the amended C6 at `limit=5`: the clamp evaluates to
`min (max 5 1) 1000`, an audit listing of an empty store returns at most
`min(5, 1000)` entries, and a one-object webhook listing does too. -/
theorem C6_limit_clamping_witness :
    parseLimit (some "5") = min (max (5 : Int) 1) 1000 ∧
    ((([] : List AuditKVEntry).length : Int) ≤ min (5 : Int) 1000) ∧
    ((["esl/a/2024-01-07/x.json"].length : Int) ≤ min (5 : Int) 1000) :=
  ⟨C6_limit_clamping.2.1 "5" 5 (by decide) (by decide),
    (C6_limit_clamping.2.2 "5" 5 (by decide) (by decide)).1 [] none none none none []
      (by decide),
    (C6_limit_clamping.2.2 "5" 5 (by decide) (by decide)).2 ["esl/a/2024-01-07/x.json"]
      none none none 0 ["esl/a/2024-01-07/x.json"] (by decide)⟩
